import Mathlib

/-!
Shallow embedding, in Lean 4, of the data-fetch layer of
`nft_dashboard_fixed.py` (the single source file of the DataDeck
repository), together with theorems checking the specified behaviour of
that layer.

Modelling conventions:

* Network I/O is made explicit: each fetch function takes the outcome of
  every `requests.get` call it would perform as a parameter
  (`HttpOutcome`), and returns, next to its Python return value, a
  `Trace` recording how many HTTP requests were issued, which
  `time.sleep` delays actually completed, and which messages were
  displayed through `st.error` / `st.warning` / `st.info`.
* Python `None` is `Option.none`; a Python function that may also
  terminate by an uncaught exception returns a `PyResult`.
* Python floats are modelled by exact rationals; every numeric fact
  proved below only involves values on which IEEE-754 double arithmetic
  is exact.
* The source module imports `streamlit`, `requests`, `pandas`,
  `datetime`, `math` and `os` (source lines 1-5 and 22) and never
  imports `time`; evaluating `time.sleep` therefore raises
  `NameError: name time is not defined`.  This is modelled by
  `timeSleep`, which always fails with that exception.
* The three fetch functions are decorated with the external
  `st.cache_data(ttl=300)` decorator (source lines 25, 91, 189); the
  functions below model one uncached invocation of the decorated body.
  The caching contract itself is modelled separately (`getOrFetch`).
-/

namespace DataDeck

/-- A message displayed in the UI through streamlit (`st.error`,
`st.warning`, `st.info`). -/
inductive Msg where
  | error (text : String)
  | warning (text : String)
  | info (text : String)
deriving DecidableEq, Repr

/-- A Python exception relevant to this module.  `nameError n` models
`NameError: name <n> is not defined`. -/
inductive Exc where
  | nameError (missing : String)
deriving DecidableEq, Repr

/-- The text `str(e)` of an exception. -/
def excMessage : Exc → String
  | .nameError n => "name \x27" ++ n ++ "\x27 is not defined"

/-- Termination of a Python function: either a normal `return v`, or an
uncaught exception propagating to the caller. -/
inductive PyResult (α : Type) where
  | ret (v : α)
  | raised (e : Exc)
deriving DecidableEq, Repr

/-- Observable effects of one invocation of a fetch function:
the number of issued HTTP requests, the `time.sleep` delays that
actually completed, and the streamlit messages displayed. -/
structure Trace where
  requests : Nat
  sleeps : List Nat
  msgs : List Msg
deriving DecidableEq, Repr

/-- The outcome of one `requests.get` call: a response with an HTTP
status code and a (decoded JSON) body, a `requests.exceptions.Timeout`,
or a `requests.exceptions.RequestException` that carries no response
(`e.response is None`), with the text of `str(e)`. -/
inductive HttpOutcome (β : Type) where
  | response (status : Nat) (body : β)
  | timeout
  | connError (text : String)
deriving DecidableEq, Repr

/-- Stand-in for `str(requests.exceptions.HTTPError)` raised by
`response.raise_for_status()` on a status `≥ 400`; the exact message
text is produced inside the requests library, outside this repository.
Only its dependence on the status code matters below. -/
def httpErrorText (status : Nat) : String :=
  toString status ++ (if 500 ≤ status then " Server Error" else " Client Error")

/-- `time.sleep`, as evaluated in this module: the name `time` is not
bound (the module never imports `time`, source lines 1-5 and 22), so the
call never sleeps and always raises `NameError`. -/
def timeSleep (_seconds : Nat) : Except Exc Unit :=
  .error (.nameError "time")

/-- The placeholder credential sentinel (source line 18). -/
def sentinel : String := "YOUR_OPENSEA_API_KEY"

def msgSetKey : String :=
  "⚠️ Please set your OpenSea API key. Check the sidebar for instructions."

def msgStatsInvalidKey : String :=
  "🚫 Invalid API key. Please check your OpenSea API key."

def msgStatsNotFound (slug : String) : String :=
  "❌ Collection \x27" ++ slug ++ "\x27 not found. Please check the slug."

def msgStatsRateLimit : String :=
  "⏰ Rate limit exceeded. Please wait a moment and try again."

def msgStatsNoData : String :=
  "No statistics data available for this collection."

def msgStatsTimeout : String :=
  "⏱️ Request timed out. Please try again."

def msgApiError (e : String) : String :=
  "🔥 API Error: " ++ e

/-- The `total` object of a stats response body, with each field
optional, as accessed by `data[\x27total\x27].get(field, 0)`
(source lines 72-75). -/
structure StatsTotal where
  floor_price : Option ℚ
  volume : Option ℚ
  sales : Option ℤ
  num_owners : Option ℤ
deriving DecidableEq, Repr

/-- Decoded JSON body of a stats response: `some t` when the key
`total` is present, `none` otherwise (source line 70). -/
abbrev StatsBody : Type := Option StatsTotal

/-- The dict returned by `get_collection_stats` on success
(source lines 71-76). -/
structure StatsRecord where
  floor_price : ℚ
  volume : ℚ
  sales : ℤ
  num_owners : ℤ
deriving DecidableEq, Repr

/-- Embedding of `get_collection_stats(slug, api_key)`
(source lines 26-89).  `out` is the outcome of the single
`requests.get` call the body would perform. -/
def get_collection_stats (slug api_key : String) (out : HttpOutcome StatsBody) :
    Option StatsRecord × Trace :=
  if api_key = sentinel then
    (none, ⟨0, [], [.error msgSetKey]⟩)
  else
    match out with
    | .response status body =>
      if status = 401 then
        (none, ⟨1, [], [.error msgStatsInvalidKey]⟩)
      else if status = 404 then
        (none, ⟨1, [], [.error (msgStatsNotFound slug)]⟩)
      else if status = 429 then
        (none, ⟨1, [], [.error msgStatsRateLimit]⟩)
      else if 400 ≤ status then
        -- response.raise_for_status() raises HTTPError, caught by the
        -- RequestException handler (source lines 65, 84-86)
        (none, ⟨1, [], [.error (msgApiError (httpErrorText status))]⟩)
      else
        match body with
        | some t =>
          (some { floor_price := t.floor_price.getD 0
                  volume := t.volume.getD 0
                  sales := t.sales.getD 0
                  num_owners := t.num_owners.getD 0 }, ⟨1, [], []⟩)
        | none =>
          (none, ⟨1, [], [.warning msgStatsNoData]⟩)
    | .timeout =>
      (none, ⟨1, [], [.error msgStatsTimeout]⟩)
    | .connError e =>
      (none, ⟨1, [], [.error (msgApiError e)]⟩)

def msgSalesRateLimit : String :=
  "⏰ Rate limit exceeded for sales data."

def msgSalesTimeout : String :=
  "⏱️ Sales data request timed out."

def msgSalesFailed (e : String) : String :=
  "🔥 Failed to fetch recent sales: " ++ e

/-- The nested `asset` object of a sale event (source lines 146-148). -/
structure SaleAsset where
  name : Option String
  identifier : Option String
deriving DecidableEq, Repr

/-- One raw sale event, with exactly the fields the source reads.
`asset = none` models all the cases in which
`(\x27asset\x27 in event and event[\x27asset\x27])` is falsy
(key absent, null, or empty), which behave identically
(source line 146).  `payment_token_symbol = none` models
`event.get(\x27payment_token\x27, \x7b\x7d).get(\x27symbol\x27, ...)`
falling through to the default (source line 154). -/
structure SaleEvent where
  total_price : Option String
  asset : Option SaleAsset
  payment_token_symbol : Option String
  event_timestamp : Option String
deriving DecidableEq, Repr

/-- Decoded JSON body of a sales response: `some evs` when the key
`asset_events` is present, `none` otherwise (source line 134). -/
abbrev SalesBody : Type := Option (List SaleEvent)

/-- One row of the DataFrame built by `get_recent_sales`
(source lines 166-171). -/
structure SaleRec where
  nft_name : String
  token_id : String
  price : String
  timestamp : String
deriving DecidableEq, Repr

/-- Digit-string to natural number. -/
def digitsToNat (l : List Char) : Nat :=
  l.foldl (fun n c => n * 10 + (c.toNat - 48)) 0

/-- Splits a character list at the first `.` character:
the part before it, and (when a dot exists) the part after it. -/
def splitFirstDot : List Char → List Char × Option (List Char)
  | [] => ([], none)
  | c :: rest =>
    if c = '.' then ([], some rest)
    else
      let p := splitFirstDot rest
      (c :: p.1, p.2)

/-- Models Python `float(s)` on the non-negative integer and plain
decimal strings that denominate prices (`"123"`, `"12.5"`);
a string outside this grammar makes `float` raise `ValueError`,
modelled by `none`.  The rational returned is the exact value of the
literal; the claims proved below only evaluate it on values where the
IEEE-754 double produced by Python is exact. -/
def pyFloatOfString (s : String) : Option ℚ :=
  match splitFirstDot s.toList with
  | (ip, none) =>
    if !ip.isEmpty && ip.all Char.isDigit then some ((digitsToNat ip : ℚ))
    else none
  | (ip, some fp) =>
    if (!ip.isEmpty || !fp.isEmpty) && ip.all Char.isDigit && fp.all Char.isDigit then
      some ((digitsToNat ip : ℚ) + (digitsToNat fp : ℚ) / (10 : ℚ) ^ fp.length)
    else none

/-- The local variable `total_price` of the per-event loop after source
lines 142-143: `float(event.get(\x27total_price\x27, 0)) / (10**18)`.
`none` models `float` raising (caught by the per-event handler). -/
def normalizedPriceAmount (ev : SaleEvent) : Option ℚ :=
  (match ev.total_price with
   | none => some (0 : ℚ)
   | some s => pyFloatOfString s).map (fun q => q / (10 : ℚ) ^ 18)

/-- Round-half-even to an integer, the rounding used by Python float
formatting. -/
def roundHalfEven (q : ℚ) : ℤ :=
  let fl := ⌊q⌋
  let fr := q - (fl : ℚ)
  if fr < 1 / 2 then fl
  else if 1 / 2 < fr then fl + 1
  else if fl % 2 = 0 then fl else fl + 1

/-- Zero-pads a natural number to four digits. -/
def padLeft4 (k : Nat) : String :=
  let s := toString k
  String.mk (List.replicate (4 - s.length) '0') ++ s

/-- Python `f"\x7bx:.4f\x7d"` on an exact rational value. -/
def formatFixed4 (q : ℚ) : String :=
  let n := roundHalfEven (q * 10000)
  let sign := if n < 0 then "-" else ""
  let m := n.natAbs
  sign ++ toString (m / 10000) ++ "." ++ padLeft4 (m % 10000)

/-- Embedding of the per-event body of the processing loop of
`get_recent_sales` (source lines 140-173).  `isoParse ts` models the
try-block of source lines 159-160 — parsing
`ts.replace(\x27Z\x27, \x27+00:00\x27)` with `datetime.fromisoformat`
and reformatting with `strftime` — returning `none` when that block
raises (the except clause keeps the raw string, source lines 161-162).
A `none` result of `processEvent` models the per-event
`except Exception: continue` (source lines 172-173), which skips the
event. -/
def processEvent (isoParse : String → Option String) (ev : SaleEvent) : Option SaleRec :=
  match normalizedPriceAmount ev with
  | none => none
  | some total_price =>
    let nft_name := match ev.asset with
      | some a => a.name.getD "Unknown"
      | none => "Unknown"
    let nft_id := match ev.asset with
      | some a => a.identifier.getD "Unknown"
      | none => "Unknown"
    let payment_token := ev.payment_token_symbol.getD "ETH"
    let formatted_time := match ev.event_timestamp with
      | none => "Unknown"
      | some ts =>
        if ts = "" then "Unknown"
        else match isoParse ts with
          | some t => t
          | none => ts
    some { nft_name := nft_name
           token_id := nft_id
           price := formatFixed4 total_price ++ " " ++ payment_token
           timestamp := formatted_time }

/-- Embedding of `get_recent_sales(slug, api_key)`
(source lines 92-187).  `out` is the outcome of the single
`requests.get` call; `some rows` models the returned DataFrame with
those rows. -/
def get_recent_sales (slug api_key : String) (out : HttpOutcome SalesBody)
    (isoParse : String → Option String) : Option (List SaleRec) × Trace :=
  if api_key = sentinel then
    (none, ⟨0, [], []⟩)
  else
    match out with
    | .response status body =>
      if status = 401 then
        (none, ⟨1, [], []⟩)
      else if status = 404 then
        (none, ⟨1, [], []⟩)
      else if status = 429 then
        (none, ⟨1, [], [.warning msgSalesRateLimit]⟩)
      else if 400 ≤ status then
        (none, ⟨1, [], [.warning (msgSalesFailed (httpErrorText status))]⟩)
      else
        match body with
        | some evs =>
          if evs.isEmpty then (some [], ⟨1, [], []⟩)
          else (some (evs.filterMap (processEvent isoParse)), ⟨1, [], []⟩)
        | none => (some [], ⟨1, [], []⟩)
    | .timeout =>
      (none, ⟨1, [], [.warning msgSalesTimeout]⟩)
    | .connError e =>
      (none, ⟨1, [], [.warning (msgSalesFailed e)]⟩)

def msgAssetsInvalidKey : String :=
  "🚫 Invalid API key for assets. Please check your OpenSea API key."

def msgAssetsNotFound (slug : String) : String :=
  "❌ Collection \x27" ++ slug ++ "\x27 not found for assets."

def msgAssetsRateLimit (attempt : Nat) : String :=
  "⏰ Rate limit exceeded for assets data. Retrying in " ++ toString (2 ^ attempt)
    ++ " seconds..."

def msgAssetsTimeoutRetry (attempt : Nat) : String :=
  "⏱️ Assets data request timed out (attempt " ++ toString (attempt + 1)
    ++ "/3). Retrying..."

def msgAssetsServerError (status attempt : Nat) : String :=
  "🚨 Server error " ++ toString status ++ " (attempt " ++ toString (attempt + 1)
    ++ "/3). Retrying in " ++ toString (2 ^ attempt) ++ " seconds..."

def msgAssetsFailed (e : String) : String :=
  "🔥 Failed to fetch collection assets: " ++ e

def msgAssetsProcessing (e : String) : String :=
  "💥 Error processing assets data: " ++ e

def msgAssetsExhausted : String :=
  "❌ Failed to fetch assets after 3 attempts due to timeout or rate limit."

/-- One NFT record of an assets response, with the fields the
dashboard reads (source lines 396, 415-421); `get_collection_assets`
returns these records untouched. -/
structure Nft where
  identifier : Option String
  name : Option String
  image_url : Option String
  traits : List (Option String × Option String)
deriving DecidableEq, Repr

/-- Decoded JSON body of an assets response: `some nfts` when the key
`nfts` is present, `none` otherwise (source line 239). -/
abbrev AssetsBody : Type := Option (List Nft)

/-- Embedding of the retry loop of `get_collection_assets`
(source lines 219-261).  `f attempt` is the outcome the
`requests.get` call of iteration `attempt` would have; `fuel` is the
number of loop iterations remaining (`max_retries - attempt`).  The
fuel-exhausted case is the code after the loop (source lines 260-261).
Inside the loop, every `time.sleep(2 ** attempt)` evaluates through
`timeSleep`: in the 429 branch it runs inside the `try` body, so its
exception falls to the generic `except Exception` handler
(source lines 256-258); in the timeout and server-error branches it
runs inside an `except` clause, so its exception propagates out of the
function uncaught. -/
def assetsLoop (slug : String) (f : Nat → HttpOutcome AssetsBody) :
    Nat → Nat → Nat → List Nat → List Msg → PyResult (Option (List Nft)) × Trace
  | _, 0, req, sleeps, msgs =>
    (.ret none, ⟨req, sleeps, msgs ++ [.error msgAssetsExhausted]⟩)
  | attempt, fuel + 1, req, sleeps, msgs =>
    match f attempt with
    | .response status body =>
      if status = 401 then
        (.ret none, ⟨req + 1, sleeps, msgs ++ [.error msgAssetsInvalidKey]⟩)
      else if status = 404 then
        (.ret (some []), ⟨req + 1, sleeps, msgs ++ [.warning (msgAssetsNotFound slug)]⟩)
      else if status = 429 then
        let msgs := msgs ++ [.warning (msgAssetsRateLimit attempt)]
        match timeSleep (2 ^ attempt) with
        | .error e =>
          -- NameError raised in the try body: caught by except Exception
          (.ret none, ⟨req + 1, sleeps, msgs ++ [.error (msgAssetsProcessing (excMessage e))]⟩)
        | .ok _ =>
          assetsLoop slug f (attempt + 1) fuel (req + 1) (sleeps ++ [2 ^ attempt]) msgs
      else if 400 ≤ status then
        -- raise_for_status() raises HTTPError, caught by the
        -- RequestException handler with e.response attached
        if 500 ≤ status then
          let msgs := msgs ++ [.warning (msgAssetsServerError status attempt)]
          match timeSleep (2 ^ attempt) with
          | .error e =>
            -- NameError raised inside the except clause: uncaught
            (.raised e, ⟨req + 1, sleeps, msgs⟩)
          | .ok _ =>
            assetsLoop slug f (attempt + 1) fuel (req + 1) (sleeps ++ [2 ^ attempt]) msgs
        else
          (.ret none, ⟨req + 1, sleeps, msgs ++ [.error (msgAssetsFailed (httpErrorText status))]⟩)
      else
        match body with
        | some nfts =>
          if nfts.isEmpty then (.ret (some []), ⟨req + 1, sleeps, msgs⟩)
          else (.ret (some nfts), ⟨req + 1, sleeps, msgs⟩)
        | none => (.ret (some []), ⟨req + 1, sleeps, msgs⟩)
    | .timeout =>
      let msgs := msgs ++ [.warning (msgAssetsTimeoutRetry attempt)]
      match timeSleep (2 ^ attempt) with
      | .error e =>
        -- NameError raised inside the except clause: uncaught
        (.raised e, ⟨req + 1, sleeps, msgs⟩)
      | .ok _ =>
        assetsLoop slug f (attempt + 1) fuel (req + 1) (sleeps ++ [2 ^ attempt]) msgs
    | .connError e =>
      (.ret none, ⟨req + 1, sleeps, msgs ++ [.error (msgAssetsFailed e)]⟩)

/-- Embedding of `get_collection_assets(slug, api_key, limit=20)`
(source lines 190-261), with `max_retries = 3`.  The `limit` and
ordering parameters only shape the outgoing request and are carried by
the supplied outcomes. -/
def get_collection_assets (slug api_key : String) (f : Nat → HttpOutcome AssetsBody) :
    PyResult (Option (List Nft)) × Trace :=
  if api_key = sentinel then
    (.ret none, ⟨0, [], []⟩)
  else
    assetsLoop slug f 0 3 0 [] []

/-- What `get_collection_assets` produces from the outcome of its first
request; by `assets_run` below the whole function never gets past its
first loop iteration. -/
def assetsFirst (slug : String) (o : HttpOutcome AssetsBody) :
    PyResult (Option (List Nft)) × Trace :=
  match o with
  | .response status body =>
    if status = 401 then
      (.ret none, ⟨1, [], [.error msgAssetsInvalidKey]⟩)
    else if status = 404 then
      (.ret (some []), ⟨1, [], [.warning (msgAssetsNotFound slug)]⟩)
    else if status = 429 then
      (.ret none, ⟨1, [], [.warning (msgAssetsRateLimit 0),
        .error (msgAssetsProcessing (excMessage (.nameError "time")))]⟩)
    else if 400 ≤ status then
      if 500 ≤ status then
        (.raised (.nameError "time"), ⟨1, [], [.warning (msgAssetsServerError status 0)]⟩)
      else
        (.ret none, ⟨1, [], [.error (msgAssetsFailed (httpErrorText status))]⟩)
    else
      match body with
      | some nfts =>
        if nfts.isEmpty then (.ret (some []), ⟨1, [], []⟩)
        else (.ret (some nfts), ⟨1, [], []⟩)
      | none => (.ret (some []), ⟨1, [], []⟩)
  | .timeout =>
    (.raised (.nameError "time"), ⟨1, [], [.warning (msgAssetsTimeoutRetry 0)]⟩)
  | .connError e =>
    (.ret none, ⟨1, [], [.error (msgAssetsFailed e)]⟩)

/-- Python `s.startswith(pre)`. -/
def pyStartswith (s pre : String) : Bool :=
  pre.toList.isPrefixOf s.toList

/-- Worker for `pyReplace`: replaces every non-overlapping occurrence
of `pat` (scanning left to right) by `rep`; `fuel` bounds the recursion
by the length of the scanned list. -/
def listReplaceAux (pat rep : List Char) : Nat → List Char → List Char
  | 0, s => s
  | _ + 1, [] => []
  | fuel + 1, c :: rest =>
    if pat.isPrefixOf (c :: rest) then
      rep ++ listReplaceAux pat rep fuel ((c :: rest).drop pat.length)
    else
      c :: listReplaceAux pat rep fuel rest

/-- Python `s.replace(pat, rep)` for a non-empty `pat`: every
non-overlapping occurrence of `pat` in `s`, scanned left to right, is
replaced by `rep`. -/
def pyReplace (s pat rep : String) : String :=
  String.mk (listReplaceAux pat.toList rep.toList s.toList.length s.toList)

/-- Whether `pat` occurs as a contiguous sublist. -/
def hasOccur (pat : List Char) : List Char → Bool
  | [] => pat.isPrefixOf []
  | c :: rest => pat.isPrefixOf (c :: rest) || hasOccur pat rest

/-- Whether `pat` occurs as a substring of `s`. -/
def containsSub (s pat : String) : Bool :=
  hasOccur pat.toList s.toList

/-- Embedding of the image-URL rewrite performed by the asset-grid
renderer (source lines 399-402): a URL starting with `ipfs://` is
replaced by the ipfs.io gateway URL; `ipfs_hash` is computed with
Python `str.replace`, which removes every occurrence of `ipfs://`. -/
def rewriteImageUrl (image_url : String) : String :=
  if pyStartswith image_url "ipfs://" then
    let ipfs_hash := pyReplace image_url "ipfs://" ""
    "https://ipfs.io/ipfs/" ++ ipfs_hash
  else
    image_url

/-- The URL the renderer passes to `st.image` for one NFT record, or
`none` when no image is shown (source lines 396-412; the empty string
is falsy). -/
def displayedImageUrl (nft : Nft) : Option String :=
  let image_url := nft.image_url.getD ""
  if image_url = "" then none
  else some (rewriteImageUrl image_url)


/-- Modelled from the spec: the repository delegates memoization to the
external `st.cache_data(ttl=300)` decorator (source lines 25, 91, 189),
whose implementation is not part of this repository; this models the
ResultCache contract of the specification.  A cache is a list of
entries `(key, value, expires_at)` with at most one live entry per key;
`now` and `expires_at` are in seconds. -/
def cacheLookup {κ α : Type} [DecidableEq κ] (now : Nat)
    (c : List (κ × α × Nat)) (k : κ) : Option α :=
  match c.find? (fun e => decide (e.1 = k)) with
  | some e => if now < e.2.2 then some e.2.1 else none
  | none => none

/-- Modelled from the spec: `getOrFetch(key, ttlSeconds, fetchFn)` of
the ResultCache contract.  Returns the value, the updated cache, and
whether `fetchFn` was invoked: a fresh entry is served from the cache;
otherwise `fetchFn` runs (its result cached even when it is a `none`
value) and the entry is replaced. -/
def getOrFetch {κ α : Type} [DecidableEq κ] (c : List (κ × α × Nat)) (k : κ)
    (now ttl : Nat) (fetchFn : Unit → α) : α × List (κ × α × Nat) × Bool :=
  match cacheLookup now c k with
  | some v => (v, c, false)
  | none =>
    let v := fetchFn ()
    (v, (k, v, now + ttl) :: c.filter (fun e => decide (¬ e.1 = k)), true)

/-- With a usable credential, `get_collection_assets` is decided
entirely by the outcome of its first request: every branch of the loop
body terminates the function (the three retry branches by the uncaught
or caught `NameError` of `timeSleep`). -/
theorem assets_run (slug api_key : String) (f : Nat → HttpOutcome AssetsBody)
    (hk : ¬ api_key = sentinel) :
    get_collection_assets slug api_key f = assetsFirst slug (f 0) := by
  unfold get_collection_assets
  rw [if_neg hk]
  rcases h0 : f 0 with ⟨s, b⟩ | _ | e
  · simp only [assetsLoop, h0, assetsFirst, timeSleep, List.nil_append,
      List.singleton_append, Nat.zero_add]
  · simp only [assetsLoop, h0, assetsFirst, timeSleep, List.nil_append,
      List.singleton_append, Nat.zero_add]
  · simp only [assetsLoop, h0, assetsFirst, timeSleep, List.nil_append,
      List.singleton_append, Nat.zero_add]

theorem toList_append (s t : String) : (s ++ t).toList = s.toList ++ t.toList := rfl

theorem isPrefixOf_append_self (p l : List Char) : p.isPrefixOf (p ++ l) = true := by
  induction p with
  | nil => simp [List.isPrefixOf]
  | cons c cs ih => simp [List.isPrefixOf, ih]

theorem listReplaceAux_of_not_occur (pat rep : List Char) (l : List Char)
    (h : hasOccur pat l = false) : ∀ fuel, listReplaceAux pat rep fuel l = l := by
  induction l with
  | nil =>
    intro fuel
    cases fuel <;> rfl
  | cons c rest ih =>
    intro fuel
    rw [hasOccur, Bool.or_eq_false_iff] at h
    cases fuel with
    | zero => rfl
    | succ n =>
      rw [listReplaceAux, if_neg (by simp [h.1]), ih h.2]

theorem listReplaceAux_append (pat rep l : List Char) (p : Char) (ps : List Char)
    (hpat : pat = p :: ps) (h : hasOccur pat l = false) (fuel : Nat) :
    listReplaceAux pat rep (fuel + 1) (pat ++ l) = rep ++ l := by
  subst hpat
  rw [List.cons_append, listReplaceAux,
    if_pos (by rw [← List.cons_append]; exact isPrefixOf_append_self _ _)]
  rw [List.length_cons, List.drop_succ_cons, List.drop_left,
    listReplaceAux_of_not_occur _ _ _ h]

/-- When the remainder after the `ipfs://` prefix contains no further
occurrence of `ipfs://`, the Python replace-all used by the renderer
computes exactly that remainder. -/
theorem pyReplace_prefix (hash : String)
    (h : containsSub hash "ipfs://" = false) :
    pyReplace ("ipfs://" ++ hash) "ipfs://" "" = hash := by
  unfold pyReplace
  rw [toList_append]
  have hlen : (("ipfs://".toList ++ hash.toList)).length = (6 + hash.toList.length) + 1 := by
    simp [List.length_append]
    omega
  rw [hlen, listReplaceAux_append "ipfs://".toList "".toList hash.toList 'i'
    "pfs://".toList rfl h (6 + hash.toList.length)]
  rfl

theorem pyStartswith_append (hash : String) :
    pyStartswith ("ipfs://" ++ hash) "ipfs://" = true := by
  unfold pyStartswith
  rw [toList_append]
  exact isPrefixOf_append_self _ _

theorem assetsFirst_trace (slug : String) (o : HttpOutcome AssetsBody) :
    (assetsFirst slug o).2.requests = 1 ∧ (assetsFirst slug o).2.sleeps = [] := by
  rcases o with ⟨s, b⟩ | _ | e
  · rcases b with _ | nfts
    · unfold assetsFirst
      dsimp only
      split_ifs <;> exact ⟨rfl, rfl⟩
    · unfold assetsFirst
      dsimp only
      split_ifs <;> exact ⟨rfl, rfl⟩
  · exact ⟨rfl, rfl⟩
  · exact ⟨rfl, rfl⟩

/-- C1: the code contradicts its own retry messages and comments: at a
usable credential and a first response of status 429 the function
performs no sleep and no second request, displays the retry warning and
then the generic processing-error message for the `NameError` raised by
the unimported `time`, and returns `None`; at a 502 response or a
network timeout the `NameError` escapes uncaught, again after a single
request and with no backoff sleep ever happening. -/
theorem retry_backoff_never_runs :
    get_collection_assets "boredapeyachtclub" "k1" (fun _ => .response 429 none) =
      (.ret none, ⟨1, [], [.warning (msgAssetsRateLimit 0),
        .error (msgAssetsProcessing (excMessage (.nameError "time")))]⟩) ∧
    (get_collection_assets "boredapeyachtclub" "k1" (fun _ => .response 502 none)).1 =
      .raised (.nameError "time") ∧
    (get_collection_assets "boredapeyachtclub" "k1" (fun _ => .timeout)).2.sleeps = [] ∧
    (get_collection_assets "boredapeyachtclub" "k1" (fun _ => .response 429 none)).2.requests = 1 := by
  refine ⟨by decide, by decide, by decide, by decide⟩

/-- C2: `get_collection_assets` issues at most one HTTP request on any
input; with a usable credential, a 429 first response makes the
`NameError` from `time.sleep` (raised in the try body) fall to the
generic exception handler, so the function displays the processing
error and returns `None` after exactly one request; a timeout or a
status `≥ 500` raises the `NameError` inside an except clause, so it
propagates as an uncaught fault. -/
theorem assets_single_request :
    (∀ slug api_key f, (get_collection_assets slug api_key f).2.requests ≤ 1) ∧
    (∀ slug api_key f b, ¬ api_key = sentinel → f 0 = .response 429 b →
      get_collection_assets slug api_key f =
        (.ret none, ⟨1, [], [.warning (msgAssetsRateLimit 0),
          .error (msgAssetsProcessing (excMessage (.nameError "time")))]⟩)) ∧
    (∀ slug api_key f, ¬ api_key = sentinel → f 0 = .timeout →
      (get_collection_assets slug api_key f).1 = .raised (.nameError "time")) ∧
    (∀ slug api_key f s b, ¬ api_key = sentinel → f 0 = .response s b → 500 ≤ s →
      (get_collection_assets slug api_key f).1 = .raised (.nameError "time")) := by
  refine ⟨?_, ?_, ?_, ?_⟩
  · intro slug api_key f
    by_cases hk : api_key = sentinel
    · simp [get_collection_assets, hk]
    · rw [assets_run slug api_key f hk, (assetsFirst_trace slug (f 0)).1]
  · intro slug api_key f b hk h0
    rw [assets_run slug api_key f hk, h0]
    rfl
  · intro slug api_key f hk h0
    rw [assets_run slug api_key f hk, h0]
    rfl
  · intro slug api_key f s b hk h0 hs
    rw [assets_run slug api_key f hk, h0]
    unfold assetsFirst
    dsimp only
    rw [if_neg (by omega), if_neg (by omega), if_neg (by omega),
      if_pos (by omega), if_pos hs]

theorem assets_single_request_witness :
    get_collection_assets "azuki" "k1" (fun _ => .response 429 none) =
      (.ret none, ⟨1, [], [.warning (msgAssetsRateLimit 0),
        .error (msgAssetsProcessing (excMessage (.nameError "time")))]⟩) ∧
    (get_collection_assets "azuki" "k1" (fun _ => .timeout)).1 = .raised (.nameError "time") ∧
    (get_collection_assets "azuki" "k1" (fun _ => .response 503 none)).1 =
      .raised (.nameError "time") ∧
    (get_collection_assets "azuki" "k1" (fun _ => .response 200 none)).2.requests ≤ 1 :=
  ⟨assets_single_request.2.1 "azuki" "k1" _ none (by decide) rfl,
   assets_single_request.2.2.1 "azuki" "k1" _ (by decide) rfl,
   assets_single_request.2.2.2 "azuki" "k1" _ 503 none (by decide) rfl (by norm_num),
   assets_single_request.1 "azuki" "k1" _⟩

/-- C3 counterexample: the empty credential is not the sentinel, so it
is not short-circuited: the stats fetch with an empty credential
performs a network request. -/
theorem empty_credential_counterexample :
    (get_collection_stats "boredapeyachtclub" "" (.response 200 none)).2.requests = 1 ∧
    ¬ (get_collection_stats "boredapeyachtclub" "" (.response 200 none)).2.requests = 0 := by
  refine ⟨by decide, by decide⟩

/-- C3 (amended): each fetch operation returns its unset result without
network I/O exactly when the credential equals the placeholder sentinel
`YOUR_OPENSEA_API_KEY`; the guard is sentinel-equality only, so any
other credential — the empty string included — leads to exactly one
HTTP request being issued. -/
theorem sentinel_guard_behaviour :
    (∀ slug out, get_collection_stats slug sentinel out =
      (none, ⟨0, [], [.error msgSetKey]⟩)) ∧
    (∀ slug out iso, get_recent_sales slug sentinel out iso = (none, ⟨0, [], []⟩)) ∧
    (∀ slug f, get_collection_assets slug sentinel f = (.ret none, ⟨0, [], []⟩)) ∧
    (∀ slug api_key out, (get_collection_stats slug api_key out).2.requests =
      if api_key = sentinel then 0 else 1) ∧
    (∀ slug api_key out iso, (get_recent_sales slug api_key out iso).2.requests =
      if api_key = sentinel then 0 else 1) ∧
    (∀ slug api_key f, (get_collection_assets slug api_key f).2.requests =
      if api_key = sentinel then 0 else 1) := by
  refine ⟨?_, ?_, ?_, ?_, ?_, ?_⟩
  · intro slug out
    simp [get_collection_stats]
  · intro slug out iso
    simp [get_recent_sales]
  · intro slug f
    simp [get_collection_assets]
  · intro slug api_key out
    by_cases hk : api_key = sentinel
    · simp [get_collection_stats, hk]
    · rw [if_neg hk]
      rcases out with ⟨s, b⟩ | _ | e
      · rcases b with _ | t <;>
          (simp only [get_collection_stats, if_neg hk]; split_ifs <;> rfl)
      · simp [get_collection_stats, hk]
      · simp [get_collection_stats, hk]
  · intro slug api_key out iso
    by_cases hk : api_key = sentinel
    · simp [get_recent_sales, hk]
    · rw [if_neg hk]
      rcases out with ⟨s, b⟩ | _ | e
      · rcases b with _ | evs <;>
          (simp only [get_recent_sales, if_neg hk]; split_ifs <;> rfl)
      · simp [get_recent_sales, hk]
      · simp [get_recent_sales, hk]
  · intro slug api_key f
    by_cases hk : api_key = sentinel
    · simp [get_collection_assets, hk]
    · rw [if_neg hk, assets_run slug api_key f hk, (assetsFirst_trace slug (f 0)).1]

/-- C4 counterexample: the NotFound error result of the stats fetch and
its missing-totals no-data result are the same value `None` — the error
is not distinguishable from no data by the returned result — and a
timeout in the assets fetch escapes as an uncaught `NameError` rather
than a tagged result. -/
theorem untagged_errors_counterexample :
    (get_collection_stats "azuki" "k1" (.response 404 none)).1 = none ∧
    (get_collection_stats "azuki" "k1" (.response 200 none)).1 = none ∧
    (get_collection_stats "azuki" "k1" (.response 404 none)).1 =
      (get_collection_stats "azuki" "k1" (.response 200 none)).1 ∧
    (get_collection_assets "azuki" "k1" (fun _ => .timeout)).1 =
      .raised (.nameError "time") := by
  refine ⟨by decide, by decide, by decide, by decide⟩

/-- C4 (amended): terminal errors are surfaced as the plain value
`None`, not as a kind-tagged result: in `get_collection_stats` each
error kind displays its own message (the six displayed messages,
no-data warning included, are pairwise distinct) but the returned value
never distinguishes the kinds from each other or from the
missing-totals no-data case; in `get_recent_sales` the 401 and 404
errors return `None` silently, with no message at all; and in
`get_collection_assets` a timeout or server-error outcome escapes as an
uncaught `NameError` instead of any result, while no backoff sleep ever
completes, so the post-loop exhausted-retries path is unreachable. -/
theorem errors_surfaced_as_none :
    (∀ slug api_key b, ¬ api_key = sentinel →
      get_collection_stats slug api_key (.response 401 b) =
        (none, ⟨1, [], [.error msgStatsInvalidKey]⟩) ∧
      get_collection_stats slug api_key (.response 404 b) =
        (none, ⟨1, [], [.error (msgStatsNotFound slug)]⟩) ∧
      get_collection_stats slug api_key (.response 429 b) =
        (none, ⟨1, [], [.error msgStatsRateLimit]⟩) ∧
      get_collection_stats slug api_key .timeout =
        (none, ⟨1, [], [.error msgStatsTimeout]⟩)) ∧
    (∀ slug api_key b s, ¬ api_key = sentinel → 500 ≤ s →
      get_collection_stats slug api_key (.response s b) =
        (none, ⟨1, [], [.error (msgApiError (httpErrorText s))]⟩)) ∧
    (∀ slug api_key e, ¬ api_key = sentinel →
      get_collection_stats slug api_key (.connError e) =
        (none, ⟨1, [], [.error (msgApiError e)]⟩)) ∧
    [Msg.error msgStatsInvalidKey, Msg.error (msgStatsNotFound "azuki"),
      Msg.error msgStatsRateLimit, Msg.error (msgApiError (httpErrorText 500)),
      Msg.error msgStatsTimeout, Msg.warning msgStatsNoData].Nodup ∧
    (∀ slug api_key b iso, ¬ api_key = sentinel →
      get_recent_sales slug api_key (.response 401 b) iso = (none, ⟨1, [], []⟩) ∧
      get_recent_sales slug api_key (.response 404 b) iso = (none, ⟨1, [], []⟩)) ∧
    (∀ slug api_key f, ¬ api_key = sentinel →
      (f 0 = .timeout ∨ ∃ s b, f 0 = .response s b ∧ 500 ≤ s) →
      (get_collection_assets slug api_key f).1 = .raised (.nameError "time")) ∧
    (∀ slug api_key f, (get_collection_assets slug api_key f).2.sleeps = []) := by
  refine ⟨?_, ?_, ?_, by decide, ?_, ?_, ?_⟩
  · intro slug api_key b hk
    refine ⟨?_, ?_, ?_, ?_⟩ <;> (unfold get_collection_stats; rw [if_neg hk]; try rfl)
  · intro slug api_key b s hk hs
    unfold get_collection_stats
    rw [if_neg hk]
    dsimp only
    rw [if_neg (by omega), if_neg (by omega), if_neg (by omega), if_pos (by omega)]
  · intro slug api_key e hk
    unfold get_collection_stats
    rw [if_neg hk]
  · intro slug api_key b iso hk
    refine ⟨?_, ?_⟩ <;> (unfold get_recent_sales; rw [if_neg hk]; try rfl)
  · intro slug api_key f hk h
    rcases h with h0 | ⟨s, b, h0, hs⟩
    · rw [assets_run slug api_key f hk, h0]
      rfl
    · rw [assets_run slug api_key f hk, h0]
      unfold assetsFirst
      dsimp only
      rw [if_neg (by omega), if_neg (by omega), if_neg (by omega),
        if_pos (by omega), if_pos hs]
  · intro slug api_key f
    by_cases hk : api_key = sentinel
    · simp [get_collection_assets, hk]
    · rw [assets_run slug api_key f hk, (assetsFirst_trace slug (f 0)).2]

theorem errors_surfaced_as_none_witness :
    get_collection_stats "azuki" "k1" (.response 401 none) =
      (none, ⟨1, [], [.error msgStatsInvalidKey]⟩) ∧
    get_collection_stats "azuki" "k1" (.response 500 none) =
      (none, ⟨1, [], [.error (msgApiError (httpErrorText 500))]⟩) ∧
    get_recent_sales "azuki" "k1" (.response 404 none) (fun _ => none) =
      (none, ⟨1, [], []⟩) ∧
    (get_collection_assets "azuki" "k1" (fun _ => .timeout)).1 =
      .raised (.nameError "time") :=
  ⟨(errors_surfaced_as_none.1 "azuki" "k1" none (by decide)).1,
   errors_surfaced_as_none.2.1 "azuki" "k1" none 500 (by decide) (by norm_num),
   (errors_surfaced_as_none.2.2.2.2.1 "azuki" "k1" none (fun _ => none) (by decide)).2,
   errors_surfaced_as_none.2.2.2.2.2.1 "azuki" "k1" (fun _ => .timeout) (by decide)
     (Or.inl rfl)⟩

/-- C5 counterexample: the value returned for a 2xx stats response with
no totals object equals the value returned for a timeout error — the
no-data result is not distinct from a fetch-error result. -/
theorem nodata_counterexample :
    (get_collection_stats "azuki" "k1" (.response 200 none)).1 =
      (get_collection_stats "azuki" "k1" .timeout).1 ∧
    (get_collection_stats "azuki" "k1" (.response 200 none)).1 = none := by
  refine ⟨by decide, by decide⟩

/-- C5 (amended): for a 2xx stats response whose body lacks the totals
object, the stats client displays the no-data warning and returns
`None`; the returned value coincides with that of every error outcome,
and the no-data case is distinguished only by the displayed message,
which is a warning and differs from every error message. -/
theorem stats_missing_totals (slug api_key : String) (s : Nat)
    (hk : ¬ api_key = sentinel) (h2 : 200 ≤ s) (h3 : s ≤ 299) :
    get_collection_stats slug api_key (.response s none) =
      (none, ⟨1, [], [.warning msgStatsNoData]⟩) ∧
    (∀ m, Msg.warning msgStatsNoData ≠ Msg.error m) := by
  constructor
  · unfold get_collection_stats
    rw [if_neg hk]
    dsimp only
    rw [if_neg (by omega), if_neg (by omega), if_neg (by omega), if_neg (by omega)]
  · intro m h
    exact Msg.noConfusion h

theorem stats_missing_totals_witness :
    get_collection_stats "azuki" "k1" (.response 200 none) =
      (none, ⟨1, [], [.warning msgStatsNoData]⟩) :=
  (stats_missing_totals "azuki" "k1" 200 (by decide) (by norm_num) (by norm_num)).1

/-- C6 counterexample: for a 401 response the sales fetch displays
nothing and returns exactly what it returns for a 404 response, so the
corresponding outcome is not surfaced verbatim (nor at all). -/
theorem sales_silent_counterexample :
    (get_recent_sales "azuki" "k1" (.response 401 none) (fun _ => none)).2.msgs = [] ∧
    get_recent_sales "azuki" "k1" (.response 401 none) (fun _ => none) =
      get_recent_sales "azuki" "k1" (.response 404 none) (fun _ => none) := by
  refine ⟨by decide, by decide⟩

/-- C6 (amended): for every 401 or 404 response each fetch operation
issues exactly one HTTP request and returns immediately, without retry;
`get_collection_stats` surfaces the outcome with a status-specific
error message and returns `None`; `get_collection_assets` surfaces a
status-specific message, returning `None` for 401 and the empty list
for 404; `get_recent_sales` returns `None` silently, displaying no
message, so there the outcome is not surfaced. -/
theorem auth_notfound_single_attempt :
    (∀ slug api_key b, ¬ api_key = sentinel →
      get_collection_stats slug api_key (.response 401 b) =
        (none, ⟨1, [], [.error msgStatsInvalidKey]⟩) ∧
      get_collection_stats slug api_key (.response 404 b) =
        (none, ⟨1, [], [.error (msgStatsNotFound slug)]⟩)) ∧
    (∀ slug api_key b iso, ¬ api_key = sentinel →
      get_recent_sales slug api_key (.response 401 b) iso = (none, ⟨1, [], []⟩) ∧
      get_recent_sales slug api_key (.response 404 b) iso = (none, ⟨1, [], []⟩)) ∧
    (∀ slug api_key f b, ¬ api_key = sentinel → f 0 = .response 401 b →
      get_collection_assets slug api_key f =
        (.ret none, ⟨1, [], [.error msgAssetsInvalidKey]⟩)) ∧
    (∀ slug api_key f b, ¬ api_key = sentinel → f 0 = .response 404 b →
      get_collection_assets slug api_key f =
        (.ret (some []), ⟨1, [], [.warning (msgAssetsNotFound slug)]⟩)) := by
  refine ⟨?_, ?_, ?_, ?_⟩
  · intro slug api_key b hk
    refine ⟨?_, ?_⟩ <;> (unfold get_collection_stats; rw [if_neg hk]; try rfl)
  · intro slug api_key b iso hk
    refine ⟨?_, ?_⟩ <;> (unfold get_recent_sales; rw [if_neg hk]; try rfl)
  · intro slug api_key f b hk h0
    rw [assets_run slug api_key f hk, h0]
    rfl
  · intro slug api_key f b hk h0
    rw [assets_run slug api_key f hk, h0]
    rfl

theorem auth_notfound_single_attempt_witness :
    get_collection_stats "azuki" "k1" (.response 404 none) =
      (none, ⟨1, [], [.error (msgStatsNotFound "azuki")]⟩) ∧
    get_recent_sales "azuki" "k1" (.response 401 none) (fun _ => none) =
      (none, ⟨1, [], []⟩) ∧
    get_collection_assets "azuki" "k1" (fun _ => .response 401 none) =
      (.ret none, ⟨1, [], [.error msgAssetsInvalidKey]⟩) ∧
    get_collection_assets "azuki" "k1" (fun _ => .response 404 none) =
      (.ret (some []), ⟨1, [], [.warning (msgAssetsNotFound "azuki")]⟩) :=
  ⟨(auth_notfound_single_attempt.1 "azuki" "k1" none (by decide)).2,
   (auth_notfound_single_attempt.2.1 "azuki" "k1" none (fun _ => none) (by decide)).1,
   auth_notfound_single_attempt.2.2.1 "azuki" "k1" _ none (by decide) rfl,
   auth_notfound_single_attempt.2.2.2 "azuki" "k1" _ none (by decide) rfl⟩

/-- C7: the sales client converts the smallest-denomination integer
price of each event to a decimal amount by dividing by `10 ^ 18`; in
particular an event with `total_price = "1000000000000000000"` has a
normalized price amount of exactly `1`. -/
theorem sale_price_normalization :
    (∀ ev s q, ev.total_price = some s → pyFloatOfString s = some q →
      normalizedPriceAmount ev = some (q / (10 : ℚ) ^ 18)) ∧
    (∀ ev, ev.total_price = some "1000000000000000000" →
      normalizedPriceAmount ev = some 1) := by
  constructor
  · intro ev s q h1 h2
    unfold normalizedPriceAmount
    rw [h1]
    dsimp only
    rw [h2]
    rfl
  · intro ev h
    unfold normalizedPriceAmount
    rw [h]
    dsimp only
    have hp : pyFloatOfString "1000000000000000000" =
        some ((1000000000000000000 : ℕ) : ℚ) := by rfl
    rw [hp, Option.map_some']
    refine congrArg some ?_
    norm_num

theorem sale_price_normalization_witness :
    normalizedPriceAmount ⟨some "1000000000000000000", none, none, none⟩ = some 1 :=
  sale_price_normalization.2 ⟨some "1000000000000000000", none, none, none⟩ rfl

/-- C8 counterexample: the assets client returns records with their raw
`ipfs://` image URL untouched — the normalization does not happen before
the records are returned to the caller. -/
theorem assets_unrewritten_counterexample :
    (get_collection_assets "azuki" "k1"
      (fun _ => .response 200 (some [⟨some "1", some "x", some "ipfs://abc123", []⟩]))).1 =
      .ret (some [⟨some "1", some "x", some "ipfs://abc123", []⟩]) ∧
    ¬ (Nft.image_url ⟨some "1", some "x", some "ipfs://abc123", []⟩ =
      some "https://ipfs.io/ipfs/abc123") := by
  refine ⟨by decide, by decide⟩

/-- C8 (amended): `get_collection_assets` returns asset records with
`image_url` unmodified; the rewriting is performed later by the
rendering layer, which maps a URL starting with `ipfs://` to
`https://ipfs.io/ipfs/` followed by the URL with every occurrence of
`ipfs://` removed (Python `str.replace`) — equal to the remainder after
the prefix whenever that remainder contains no further `ipfs://` — and
leaves every other URL unchanged. -/
theorem ipfs_rewrite_in_renderer :
    (∀ slug api_key f nfts, ¬ api_key = sentinel →
      f 0 = .response 200 (some nfts) → nfts.isEmpty = false →
      (get_collection_assets slug api_key f).1 = .ret (some nfts)) ∧
    (∀ hash, containsSub hash "ipfs://" = false →
      rewriteImageUrl ("ipfs://" ++ hash) = "https://ipfs.io/ipfs/" ++ hash) ∧
    rewriteImageUrl "ipfs://abc123" = "https://ipfs.io/ipfs/abc123" ∧
    (∀ u, pyStartswith u "ipfs://" = false → rewriteImageUrl u = u) := by
  refine ⟨?_, ?_, by decide, ?_⟩
  · intro slug api_key f nfts hk h0 hne
    rw [assets_run slug api_key f hk, h0]
    unfold assetsFirst
    dsimp only
    rw [if_neg (by omega), if_neg (by omega), if_neg (by omega), if_neg (by omega)]
    rw [hne]
    rfl
  · intro hash h
    unfold rewriteImageUrl
    rw [if_pos (pyStartswith_append hash), pyReplace_prefix hash h]
  · intro u h
    unfold rewriteImageUrl
    rw [if_neg (by rw [h]; exact Bool.false_ne_true)]

theorem ipfs_rewrite_in_renderer_witness :
    rewriteImageUrl ("ipfs://" ++ "abc123") = "https://ipfs.io/ipfs/" ++ "abc123" ∧
    (get_collection_assets "azuki" "k1"
      (fun _ => .response 200 (some [⟨none, none, some "ipfs://abc123", []⟩]))).1 =
      .ret (some [⟨none, none, some "ipfs://abc123", []⟩]) ∧
    rewriteImageUrl "https://example.com/a.png" = "https://example.com/a.png" :=
  ⟨ipfs_rewrite_in_renderer.2.1 "abc123" (by decide),
   ipfs_rewrite_in_renderer.1 "azuki" "k1" _ _ (by decide) rfl (by decide),
   ipfs_rewrite_in_renderer.2.2.2 "https://example.com/a.png" (by decide)⟩

/-- C9: for a 2xx assets response whose body carries an empty asset
list, the assets client returns the empty list after one request — a
value distinct from the error result `None` and from any uncaught
fault, and there is no separate no-data result for assets. -/
theorem assets_empty_list_not_error (slug api_key : String)
    (f : Nat → HttpOutcome AssetsBody) (s : Nat) (hk : ¬ api_key = sentinel)
    (h2 : 200 ≤ s) (h3 : s ≤ 299) (h0 : f 0 = .response s (some [])) :
    get_collection_assets slug api_key f = (.ret (some []), ⟨1, [], []⟩) ∧
    (PyResult.ret (some []) : PyResult (Option (List Nft))) ≠ .ret none ∧
    (∀ e, (PyResult.ret (some []) : PyResult (Option (List Nft))) ≠ .raised e) := by
  refine ⟨?_, by decide, fun e h => PyResult.noConfusion h⟩
  rw [assets_run slug api_key f hk, h0]
  unfold assetsFirst
  dsimp only
  rw [if_neg (by omega), if_neg (by omega), if_neg (by omega), if_neg (by omega)]
  rfl

theorem assets_empty_list_not_error_witness :
    get_collection_assets "azuki" "k1" (fun _ => .response 200 (some [])) =
      (.ret (some []), ⟨1, [], []⟩) :=
  (assets_empty_list_not_error "azuki" "k1" (fun _ => .response 200 (some [])) 200
    (by decide) (by norm_num) (by norm_num) rfl).1

/-- C10: two `getOrFetch` calls with the same key inside the TTL window
invoke the underlying fetch exactly once: starting from a cache with no
fresh entry for the key, the first call invokes the fetch and caches
its result — a `none` value exactly like a present one, since the value
type is arbitrary — and the second call is served from the cache
without invoking the fetch, returning the same value. -/
theorem getOrFetch_memoizes {κ α : Type} [DecidableEq κ] (c : List (κ × α × Nat))
    (k : κ) (t1 t2 ttl : Nat) (f : Unit → α)
    (hmiss : cacheLookup t1 c k = none) (hfresh : t2 < t1 + ttl) :
    (getOrFetch c k t1 ttl f).2.2 = true ∧
    (getOrFetch c k t1 ttl f).1 = f () ∧
    (getOrFetch (getOrFetch c k t1 ttl f).2.1 k t2 ttl f).2.2 = false ∧
    (getOrFetch (getOrFetch c k t1 ttl f).2.1 k t2 ttl f).1 =
      (getOrFetch c k t1 ttl f).1 := by
  have h1 : getOrFetch c k t1 ttl f =
      (f (), (k, f (), t1 + ttl) :: c.filter (fun e => decide (¬ e.1 = k)), true) := by
    unfold getOrFetch
    rw [hmiss]
  have h2 : cacheLookup t2
      ((k, f (), t1 + ttl) :: c.filter (fun e => decide (¬ e.1 = k))) k = some (f ()) := by
    unfold cacheLookup
    rw [List.find?_cons_of_pos _ (by simp)]
    simp [hfresh]
  rw [h1]
  refine ⟨rfl, rfl, ?_, ?_⟩ <;> (dsimp only; unfold getOrFetch; rw [h2])

theorem getOrFetch_memoizes_witness :
    (getOrFetch ([] : List (Nat × Option Nat × Nat)) 7 0 300 (fun _ => none)).2.2 = true ∧
    (getOrFetch (getOrFetch ([] : List (Nat × Option Nat × Nat)) 7 0 300
      (fun _ => none)).2.1 7 100 300 (fun _ => none)).2.2 = false ∧
    (getOrFetch (getOrFetch ([] : List (Nat × Option Nat × Nat)) 7 0 300
      (fun _ => none)).2.1 7 100 300 (fun _ => none)).1 = none := by
  have h := getOrFetch_memoizes ([] : List (Nat × Option Nat × Nat)) 7 0 100 300
    (fun _ => none) (by decide) (by norm_num)
  exact ⟨h.1, h.2.2.1, by rw [h.2.2.2, h.2.1]⟩

end DataDeck
